import Mathlib

/-!
Shallow embedding of the `cv_match` scoring pipeline
(`matching/extractor.py`, `matching/scorer.py`, `matching/serializers.py`,
`matching/models.py`) and verification of its specification.

Python machine-level conventions used throughout:
- `None`-able values are `Option`s; a Python comparison or arithmetic
  operation on `None` raises `TypeError`, modelled by `Except.error`.
- Python `float` arithmetic on the score values is modelled with `ℚ`
  (all arithmetic in the scorer is exact on the inputs of interest).
- External effects (document parsing, the two LLM invocations, JSON
  serialization) are passed in as explicit oracle arguments.
-/

/-- Python exceptions raised by the embedded code. -/
inductive PyErr where
  | typeError (msg : String)
  | valueError (msg : String)
deriving DecidableEq

/-- The message carried by a Python exception (its `str(e)`). -/
def PyErr.msg : PyErr → String
  | .typeError m => m
  | .valueError m => m

instance {ε α : Type} [DecidableEq ε] [DecidableEq α] : DecidableEq (Except ε α)
  | .error e, .error f =>
    if h : e = f then .isTrue (congrArg Except.error h)
    else .isFalse (fun hh => h (by injection hh))
  | .error _, .ok _ => .isFalse (fun hh => by injection hh)
  | .ok _, .error _ => .isFalse (fun hh => by injection hh)
  | .ok x, .ok y =>
    if h : x = y then .isTrue (congrArg Except.ok h)
    else .isFalse (fun hh => h (by injection hh))

/-- `matching/models.py` — `JobOffer` (the fields the scoring pipeline reads;
`required_diploma_ranking` is a nullable `IntegerField`). -/
structure JobOffer where
  title : String := ""
  description : String := ""
  required_skills : String := ""
  company_name : String := ""
  location : String := ""
  required_languages : String := ""
  required_diploma : String := ""
  required_diploma_ranking : Option ℤ := none
  required_experience : ℤ := 0
  contract_type : String := ""
  work_type : String := ""
deriving DecidableEq

/-- `matching/models.py` — the extracted-profile fields of the `CV` record
that `Extractor.save` writes. -/
structure CVRecord where
  name : Option String := none
  website : Option String := none
  phone_number : Option String := none
  email : Option String := none
  description : Option String := none
  skills : String := ""
  diploma : Option String := none
  diploma_ranking : Option ℤ := none
  year_experience : Option ℤ := none
  experiences : List String := []
  languages : String := ""
  certifications : List String := []
  raw_text : Option String := none
deriving DecidableEq

/-- `matching/extractor.py` — the mutable state of an `Extractor` instance. -/
structure Extractor where
  name : Option String := none
  website : Option String := none
  phone_number : Option String := none
  email : Option String := none
  description : Option String := none
  skills : List String := []
  diploma : Option String := none
  diploma_ranking : Option ℤ := none
  year_experience : Option ℤ := none
  experiences : List String := []
  languages : List String := []
  certifications : List String := []
  raw_text : Option String := none
deriving DecidableEq

/-- `Extractor.__init__`: every scalar field `None`, every list field empty. -/
def initExtractor : Extractor := {}

/-- `matching/extractor.py` — the `CVData` pydantic schema returned by the
extraction LLM (`diploma_ranking` and `year_experience` default to `0`). -/
structure CVData where
  name : Option String := none
  website : Option String := none
  phone_number : Option String := none
  email : Option String := none
  description : Option String := none
  skills : List String := []
  diploma : Option String := none
  diploma_ranking : ℤ := 0
  year_experience : ℤ := 0
  experiences : List String := []
  languages : List String := []
  certifications : List String := []
deriving DecidableEq

/-- `matching/scorer.py` — the `ScoringData` pydantic schema returned by the
adjustment LLM. -/
structure ScoringData where
  experience : ℚ := 0
  skills : ℚ := 0
  education : ℚ := 0
  languages : ℚ := 0
  job_fit : ℚ := 0
  score_comments : List String := []
  strengths : List String := []
  weaknesses : List String := []
  missing_skills : List String := []
  summary : String := ""
deriving DecidableEq

/-- The three supported LLM backends. -/
inductive Provider where
  | openai
  | anthropic
  | ollama
deriving DecidableEq

/-- The `if settings.EXTRACTION_MODEL_PROVIDER == 'openai' ... else None`
chain shared by `Extractor.semantic_extract` and `GlobalScorer.__init__`:
the provider string selects an LLM, anything else selects none. -/
def llmOf (provider : String) : Option Provider :=
  if provider = "openai" then some .openai
  else if provider = "anthropic" then some .anthropic
  else if provider = "ollama" then some .ollama
  else none

/-- Python `str.lower()` (ASCII case folding suffices for the embedded data);
computed over the character list so that it evaluates by kernel reduction. -/
def pyLower (s : String) : String := ⟨s.data.map Char.toLower⟩

/-- Python `str.strip()`: drop leading and trailing whitespace. -/
def pyStrip (s : String) : String :=
  ⟨((s.data.dropWhile Char.isWhitespace).reverse.dropWhile Char.isWhitespace).reverse⟩

/-- Python `str.split(sep)` for a one-character separator: `"".split(',')`
is `[""]`, and consecutive separators produce empty pieces. -/
def pySplitChar (sep : Char) (s : String) : List String :=
  (s.data.foldr
    (fun c acc =>
      match acc with
      | [] => if c = sep then [[], []] else [[c]]
      | a :: as => if c = sep then [] :: a :: as else (c :: a) :: as)
    [[]]).map fun l => (⟨l⟩ : String)

/-- Python `sep.join(xs)`. -/
def pyJoin (sep : String) (xs : List String) : String :=
  ⟨List.intercalate sep.data (xs.map String.data)⟩

/-- The stored CV document, as the extractor sees it: the file suffix, the raw
text `mammoth` would produce for it, and the per-page texts `pdfplumber`
would produce (a page with no text layer yields `""`). -/
structure CVFile where
  suffix : String
  docxText : String := ""
  pdfPageTexts : List String := []
deriving DecidableEq

/-- `Extractor._extract_raw_docx`: `mammoth.extract_raw_text(...).value.strip()`. -/
def extract_raw_docx (file : CVFile) : String := pyStrip file.docxText

/-- `Extractor._extract_raw_pdf`: keep pages whose `extract_text()` is truthy,
join with newlines, strip. -/
def extract_raw_pdf (file : CVFile) : String :=
  pyStrip (pyJoin "\n" (file.pdfPageTexts.filter (fun p => p != "")))

/-- `Extractor.extract_raw`: dispatch on the file suffix; an unrecognized
suffix only logs a warning and leaves `raw_text` empty, so it falls into the
same `ValueError` as a recognized file that yields no text. -/
def extract_raw (file : CVFile) : Except PyErr String :=
  let raw_text :=
    if file.suffix ∈ [".docx", ".doc", ".DOCX", ".DOC"] then extract_raw_docx file
    else if file.suffix ∈ [".pdf", ".PDF"] then extract_raw_pdf file
    else ""
  if raw_text = "" then
    .error (.valueError "Sorry we were unable to extract anything from this CV")
  else .ok raw_text

/-- Which external effects a call to `semantic_extract` performed. -/
structure Effects where
  modelInvoked : Bool
  fileRead : Bool
  cvSaved : Bool
deriving DecidableEq

/-- No external effect happened. -/
def noEffects : Effects := ⟨false, false, false⟩

/-- The field-assignment block of `Extractor.semantic_extract` after a
successful LLM call.  Mirrors the source exactly: `certifications` is the one
schema field that is never copied from `result` onto `self`. -/
def applyCVData (ext : Extractor) (raw : String) (result : CVData) : Extractor :=
  { ext with
    raw_text := some raw
    name := result.name
    website := result.website
    phone_number := result.phone_number
    email := result.email
    description := result.description
    skills := result.skills
    diploma := result.diploma
    diploma_ranking := some result.diploma_ranking
    year_experience := some result.year_experience
    experiences := result.experiences
    languages := result.languages }

/-- `Extractor.save`: copy the extractor state onto the owning CV record
(list-of-string fields `skills` and `languages` are comma-joined). -/
def Extractor.saveToCV (ext : Extractor) (cv : CVRecord) : CVRecord :=
  { cv with
    name := ext.name
    website := ext.website
    phone_number := ext.phone_number
    email := ext.email
    description := ext.description
    skills := pyJoin ", " ext.skills
    diploma := ext.diploma
    diploma_ranking := ext.diploma_ranking
    year_experience := ext.year_experience
    experiences := ext.experiences
    languages := pyJoin ", " ext.languages
    certifications := ext.certifications
    raw_text := ext.raw_text }

/-- `Extractor.semantic_extract`.  `llmExtract` is the oracle for
`structured_llm.invoke` on the extraction prompt.  An unsupported provider
returns early with no effect; otherwise the raw text is read, the model is
invoked, the fields are assigned and the CV record is saved.  Any exception
inside the `try` block is re-raised as `ValueError(e)`. -/
def semantic_extract (provider : String) (file : CVFile) (llmExtract : Except PyErr CVData)
    (ext : Extractor) (cv : CVRecord) :
    Except PyErr (Extractor × CVRecord) × Effects :=
  match llmOf provider with
  | none => (.ok (ext, cv), noEffects)
  | some _ =>
    match extract_raw file with
    | .error e => (.error (.valueError e.msg), ⟨false, true, false⟩)
    | .ok raw =>
      match llmExtract with
      | .error e => (.error (.valueError e.msg), ⟨true, true, false⟩)
      | .ok result =>
        let ext2 := applyCVData ext raw result
        (.ok (ext2, ext2.saveToCV cv), ⟨true, true, true⟩)

/-- `GlobalScorer._score_experience`: 100 when no experience is required or
the candidate meets it, else the rule of three.  When `year_experience` is
still `None` the `>=` comparison raises `TypeError`. -/
def score_experience (offer : JobOffer) (ext : Extractor) : Except PyErr ℚ :=
  if offer.required_experience ≤ 0 then .ok 100
  else
    match ext.year_experience with
    | none => .error (.typeError "unsupported comparison between NoneType and int")
    | some y =>
      if y ≥ offer.required_experience then .ok 100
      else .ok ((y : ℚ) / (offer.required_experience : ℚ) * 100)

/-- The set `{skill.lower() for skill in self.extractor.skills}`. -/
def candidateSkillSet (ext : Extractor) : Finset String :=
  (ext.skills.map pyLower).toFinset

/-- The set `{skill.strip().lower() for skill in required_skills.split(',')}`. -/
def requiredSkillSet (offer : JobOffer) : Finset String :=
  ((pySplitChar ',' offer.required_skills).map (fun s => pyLower (pyStrip s))).toFinset

/-- `GlobalScorer._score_skills`: 100 when the offer requires no skills,
0 when the candidate's skill set is empty, else
`(len(matches) / len(candidate_skills)) * 100`. -/
def score_skills (offer : JobOffer) (ext : Extractor) : ℚ :=
  if offer.required_skills = "" then 100
  else
    let candidate_skills := candidateSkillSet ext
    let required_skills := requiredSkillSet offer
    let matched := required_skills ∩ candidate_skills
    if candidate_skills = ∅ then 0
    else ((matched.card : ℚ) / (candidate_skills.card : ℚ)) * 100

/-- `GlobalScorer._score_diploma`: the required ranking is coerced to 0 when
falsy (`None` or `0`); 100 when the candidate ranking reaches it, else the
rule of three over the *raw* required ranking (which raises `TypeError` when
it is `None` and `ZeroDivisionError` when it is `0`).  A `None` candidate
ranking makes the `>=` comparison raise `TypeError`. -/
def score_diploma (offer : JobOffer) (ext : Extractor) : Except PyErr ℚ :=
  let required_diploma_ranking := offer.required_diploma_ranking.getD 0
  match ext.diploma_ranking with
  | none => .error (.typeError "unsupported comparison between NoneType and int")
  | some c =>
    if c ≥ required_diploma_ranking then .ok 100
    else
      match offer.required_diploma_ranking with
      | none => .error (.typeError "unsupported operand types for division: int and NoneType")
      | some r =>
        if r = 0 then .error (.valueError "division by zero")
        else .ok ((c : ℚ) / (r : ℚ) * 100)

/-- The mapping built by `GlobalScorer.compute_deterministic_score`. -/
structure DetScore where
  experience_score : ℚ
  skill_score : ℚ
  diploma_score : ℚ
deriving DecidableEq

/-- `GlobalScorer.compute_deterministic_score`: the three sub-scores in
source order; the first raised exception propagates. -/
def compute_deterministic_score (offer : JobOffer) (ext : Extractor) :
    Except PyErr DetScore := do
  let experience_score ← score_experience offer ext
  let skill_score := score_skills offer ext
  let diploma_score ← score_diploma offer ext
  return { experience_score := experience_score
           skill_score := skill_score
           diploma_score := diploma_score }

/-- The fixed weight vector from `GlobalScorer.__init__`. -/
structure Weights where
  experience : ℚ
  skills : ℚ
  education : ℚ
  languages : ℚ
  job_fit : ℚ
deriving DecidableEq

/-- `self.weights` as assigned in `GlobalScorer.__init__`. -/
def weights : Weights :=
  { experience := 0.25
    skills := 0.35
    education := 0.10
    languages := 0.10
    job_fit := 0.20 }

/-- `GlobalScorer.compute_score`: the deterministic score is computed first
(whether or not an LLM is configured); when no LLM is configured it returns
`(0.0, {})`; otherwise the adjustment LLM is invoked (`llmScore` is the
oracle for `structured_llm.invoke`) and the final score is the weighted sum
of the five adjusted scores.  The empty detail dict `{}` is modelled by
`none`, a populated one by `some results`. -/
def compute_score (provider : String) (offer : JobOffer) (ext : Extractor)
    (llmScore : Except PyErr ScoringData) : Except PyErr (ℚ × Option ScoringData) := do
  let _ ← compute_deterministic_score offer ext
  match llmOf provider with
  | none => return (0, none)
  | some _ =>
    match llmScore with
    | .error e => .error e
    | .ok results =>
      let global_score :=
        weights.experience * results.experience + weights.skills * results.skills +
        weights.education * results.education + weights.languages * results.languages +
        weights.job_fit * results.job_fit
      return (global_score, some results)

/-- `GlobalScorer.__init__` followed by `compute_score`, as invoked by
`CVScoreSerializer.save`: a fresh `Extractor` runs `semantic_extract`
(exceptions re-raised), then the score is computed. -/
def scoringPipeline (provider : String) (file : CVFile) (llmExtract : Except PyErr CVData)
    (llmScore : Except PyErr ScoringData) (offer : JobOffer) (cv : CVRecord) :
    Except PyErr (ℚ × Option ScoringData × CVRecord) :=
  match (semantic_extract provider file llmExtract initExtractor cv).1 with
  | .error e => .error e
  | .ok (ext, cv2) =>
    match compute_score provider offer ext llmScore with
    | .error e => .error e
    | .ok (score_value, score_details) => .ok (score_value, score_details, cv2)

/-- `matching/models.py` — a stored `CVMatching` row (foreign keys as ids). -/
structure MatchRec where
  job_offer : ℕ
  cv : ℕ
  score : ℚ
  score_description : String
  evaluated_at : ℤ
deriving DecidableEq

/-- Whether a stored row belongs to the (job offer, cv) pair. -/
def matchKey (j c : ℕ) (r : MatchRec) : Bool := r.job_offer == j && r.cv == c

/-- Django's `CVMatching.objects.update_or_create(job_offer=..., cv=...,
defaults=...)`: no existing row for the pair → insert a new one; exactly one
→ update it in place; several → `MultipleObjectsReturned`. -/
def update_or_create (j c : ℕ) (score : ℚ) (descr : String) (t : ℤ)
    (db : List MatchRec) : Except PyErr (List MatchRec) :=
  match db.filter (matchKey j c) with
  | [] =>
    .ok (db ++ [{ job_offer := j, cv := c, score := score,
                  score_description := descr, evaluated_at := t }])
  | [_] =>
    .ok (db.map (fun r =>
      if matchKey j c r then
        { r with score := score, score_description := descr, evaluated_at := t }
      else r))
  | _ => .error (.valueError "get returned more than one CVMatching")

/-- Number of stored `CVMatching` rows for the (job offer, cv) pair. -/
def countPair (j c : ℕ) (db : List MatchRec) : ℕ := (db.filter (matchKey j c)).length

/-- The two `ValidationError`s `CVScoreSerializer.save` can raise. -/
inductive VErr where
  | unableToCompute
  | unableToSerialize
deriving DecidableEq

/-- `CVScoreSerializer.save`: run the scorer (any exception → the
`Unable to compute score` validation error, nothing written); serialize the
details with `json.dumps` (`dumps` is the oracle; failure → the
`Unable to serialize score details` validation error, nothing written); only
then upsert the `CVMatching` row.  The returned pair is (validation error if
any, the match table after the call). -/
def cvScoreSave (provider : String) (file : CVFile) (llmExtract : Except PyErr CVData)
    (llmScore : Except PyErr ScoringData) (dumps : Option ScoringData → Except PyErr String)
    (offer : JobOffer) (j c : ℕ) (cv : CVRecord) (t : ℤ) (db : List MatchRec) :
    Except PyErr (Option VErr × List MatchRec) :=
  match scoringPipeline provider file llmExtract llmScore offer cv with
  | .error _ => .ok (some .unableToCompute, db)
  | .ok (score_value, score_details, _) =>
    match dumps score_details with
    | .error _ => .ok (some .unableToSerialize, db)
    | .ok serialized_details =>
      (update_or_create j c score_value serialized_details t db).map
        (fun db2 => (none, db2))

/-- Claim C2: for every job offer and extracted candidate profile, an empty
`required_skills` string gives skill score 100; otherwise a candidate with no
extracted skills gets 0; otherwise the score is the size of the intersection
of the lower-cased required-skill set with the lower-cased candidate skill
set, divided by the candidate's skill-set size, times 100 — and the example
(candidate skills python and go, required "Python, Rust") scores exactly 50. -/
theorem c2_skill_score :
    (∀ (offer : JobOffer) (ext : Extractor),
      (offer.required_skills = "" → score_skills offer ext = 100) ∧
      (offer.required_skills ≠ "" → ext.skills = [] → score_skills offer ext = 0) ∧
      (offer.required_skills ≠ "" → ext.skills ≠ [] →
        score_skills offer ext =
          ((requiredSkillSet offer ∩ candidateSkillSet ext).card : ℚ) /
            ((candidateSkillSet ext).card : ℚ) * 100)) ∧
    score_skills { required_skills := "Python, Rust" } { skills := ["python", "go"] } = 50 := by
  constructor
  · intro offer ext
    refine ⟨fun h => by simp [score_skills, h], fun h hsk => ?_, fun h hsk => ?_⟩
    · have hempty : candidateSkillSet ext = ∅ := by
        simp [candidateSkillSet, hsk]
      simp [score_skills, h, hempty]
    · have hne : candidateSkillSet ext ≠ ∅ := by
        simp [candidateSkillSet, List.toFinset_eq_empty_iff, hsk]
      simp [score_skills, h, hne]
  · have h1 : (requiredSkillSet { required_skills := "Python, Rust" } ∩
        candidateSkillSet { skills := ["python", "go"] }).card = 1 := by decide
    have h2 : (candidateSkillSet { skills := ["python", "go"] }).card = 2 := by decide
    have h3 : ¬(candidateSkillSet { skills := ["python", "go"] } = ∅) := by decide
    have h4 : ¬(("Python, Rust" : String) = "") := by decide
    simp only [score_skills, if_neg h4, if_neg h3, h1, h2]
    norm_num

/-- Witness for C2 at a concrete input: the non-degenerate formula branch,
instantiated with candidate skills python and go against "Python, Rust". -/
theorem c2_skill_score_witness :
    score_skills { required_skills := "Python, Rust" } { skills := ["python", "go"] } =
      ((requiredSkillSet { required_skills := "Python, Rust" } ∩
        candidateSkillSet { skills := ["python", "go"] }).card : ℚ) /
        ((candidateSkillSet { skills := ["python", "go"] }).card : ℚ) * 100 :=
  (c2_skill_score.1 { required_skills := "Python, Rust" }
    { skills := ["python", "go"] }).2.2 (by decide) (by decide)

/-- Claim C3: for a candidate profile with extracted years ≥ 0, a required
experience ≤ 0 scores 100; a candidate meeting the requirement (boundary
included) scores 100; otherwise the score is the linear rule of three,
never negative — and 2 years against required 4 scores exactly 50. -/
theorem c3_experience_score :
    (∀ (offer : JobOffer) (ext : Extractor) (y : ℤ),
      ext.year_experience = some y → 0 ≤ y →
      (offer.required_experience ≤ 0 → score_experience offer ext = .ok 100) ∧
      (0 < offer.required_experience → offer.required_experience ≤ y →
        score_experience offer ext = .ok 100) ∧
      (0 < offer.required_experience → y < offer.required_experience →
        score_experience offer ext =
          .ok ((y : ℚ) / (offer.required_experience : ℚ) * 100) ∧
        0 ≤ (y : ℚ) / (offer.required_experience : ℚ) * 100)) ∧
    score_experience { required_experience := 4 } { year_experience := some 2 } = .ok 50 := by
  constructor
  · intro offer ext y hy hy0
    refine ⟨fun h => by simp [score_experience, h], fun h1 h2 => ?_, fun h1 h2 => ?_⟩
    · simp only [score_experience, hy]
      rw [if_neg (by omega), if_pos (by omega)]
    · constructor
      · simp only [score_experience, hy]
        rw [if_neg (by omega), if_neg (by omega)]
      · have hyq : (0 : ℚ) ≤ (y : ℚ) := by exact_mod_cast hy0
        have hrq : (0 : ℚ) ≤ (offer.required_experience : ℚ) := by
          exact_mod_cast le_of_lt h1
        exact mul_nonneg (div_nonneg hyq hrq) (by norm_num)
  · norm_num [score_experience]

/-- Witness for C3 at a concrete input: 2 years against required 4 takes the
rule-of-three branch and yields 50. -/
theorem c3_experience_score_witness :
    score_experience { required_experience := 4 } { year_experience := some 2 } = .ok 50 := by
  have h := (c3_experience_score.1 { required_experience := 4 }
    { year_experience := some 2 } 2 rfl (by decide)).2.2 (by decide) (by decide)
  rw [h.1]
  norm_num

/-- Claim C4: for a candidate profile with extracted diploma rank ≥ 0, an
unset required rank is treated as 0; a candidate rank reaching the (coerced)
required rank scores 100 (so rank 0 or unset always yields 100); otherwise
the score is the rule of three, and no division by zero or `None` arithmetic
ever occurs (the call always returns a value) — and rank 3 against required
rank 5 scores exactly 60. -/
theorem c4_diploma_score :
    (∀ (offer : JobOffer) (ext : Extractor) (c : ℤ),
      ext.diploma_ranking = some c → 0 ≤ c →
      (offer.required_diploma_ranking.getD 0 ≤ c → score_diploma offer ext = .ok 100) ∧
      (offer.required_diploma_ranking = none → score_diploma offer ext = .ok 100) ∧
      (∀ r : ℤ, offer.required_diploma_ranking = some r → c < r →
        score_diploma offer ext = .ok ((c : ℚ) / (r : ℚ) * 100)) ∧
      (∃ q : ℚ, score_diploma offer ext = .ok q)) ∧
    score_diploma { required_diploma_ranking := some 5 } { diploma_ranking := some 3 } =
      .ok 60 := by
  constructor
  · intro offer ext c hc hc0
    have hbranch1 : offer.required_diploma_ranking.getD 0 ≤ c →
        score_diploma offer ext = .ok 100 := by
      intro h
      simp only [score_diploma, hc]
      rw [if_pos (by omega)]
    have hbranch3 : ∀ r : ℤ, offer.required_diploma_ranking = some r → c < r →
        score_diploma offer ext = .ok ((c : ℚ) / (r : ℚ) * 100) := by
      intro r hr hcr
      have hr0 : r ≠ 0 := by omega
      simp only [score_diploma, hc, hr]
      rw [if_neg (by simp [hr]; omega), if_neg hr0]
    refine ⟨hbranch1, fun h => hbranch1 (by simp only [h, Option.getD_none]; exact hc0), hbranch3, ?_⟩
    cases hr : offer.required_diploma_ranking with
    | none => exact ⟨100, hbranch1 (by simp only [hr, Option.getD_none]; exact hc0)⟩
    | some r =>
      by_cases hcr : r ≤ c
      · exact ⟨100, hbranch1 (by simp [hr, hcr])⟩
      · exact ⟨_, hbranch3 r hr (by omega)⟩
  · norm_num [score_diploma]

/-- Witness for C4 at a concrete input: rank 3 against required rank 5 takes
the rule-of-three branch and yields 60. -/
theorem c4_diploma_score_witness :
    score_diploma { required_diploma_ranking := some 5 } { diploma_ranking := some 3 } =
      .ok 60 := by
  have h := (c4_diploma_score.1 { required_diploma_ranking := some 5 }
    { diploma_ranking := some 3 } 3 rfl (by decide)).2.2.1 5 rfl (by decide)
  rw [h]
  norm_num

/-- Claim C5: the weight vector is exactly (0.25, 0.35, 0.10, 0.10, 0.20),
summing to 1; for any adjustment result, `compute_score` returns exactly the
dot product of the five adjusted scores with these weights (no rounding, no
clamping); the dot product lies in [0, 100] whenever all five scores do; and
the example scores (80, 90, 70, 60, 85) yield exactly 81.5. -/
theorem c5_weighted_aggregation :
    (weights.experience = 0.25 ∧ weights.skills = 0.35 ∧ weights.education = 0.10 ∧
      weights.languages = 0.10 ∧ weights.job_fit = 0.20 ∧
      weights.experience + weights.skills + weights.education + weights.languages +
        weights.job_fit = 1) ∧
    (∀ (provider : String) (offer : JobOffer) (ext : Extractor) (sd : ScoringData)
        (det : DetScore),
      (llmOf provider).isSome →
      compute_deterministic_score offer ext = .ok det →
      compute_score provider offer ext (.ok sd) =
        .ok (weights.experience * sd.experience + weights.skills * sd.skills +
             weights.education * sd.education + weights.languages * sd.languages +
             weights.job_fit * sd.job_fit, some sd)) ∧
    (∀ sd : ScoringData,
      0 ≤ sd.experience → sd.experience ≤ 100 → 0 ≤ sd.skills → sd.skills ≤ 100 →
      0 ≤ sd.education → sd.education ≤ 100 → 0 ≤ sd.languages → sd.languages ≤ 100 →
      0 ≤ sd.job_fit → sd.job_fit ≤ 100 →
      0 ≤ weights.experience * sd.experience + weights.skills * sd.skills +
          weights.education * sd.education + weights.languages * sd.languages +
          weights.job_fit * sd.job_fit ∧
        weights.experience * sd.experience + weights.skills * sd.skills +
          weights.education * sd.education + weights.languages * sd.languages +
          weights.job_fit * sd.job_fit ≤ 100) ∧
    compute_score "openai" { required_experience := 0, required_skills := "" }
      { year_experience := some 5, diploma_ranking := some 5 }
      (.ok { experience := 80, skills := 90, education := 70, languages := 60,
             job_fit := 85 }) =
      .ok (81.5, some { experience := 80, skills := 90, education := 70, languages := 60,
                        job_fit := 85 }) := by
  refine ⟨⟨rfl, rfl, rfl, rfl, rfl, by norm_num [weights]⟩, ?_, ?_, ?_⟩
  · intro provider offer ext sd det hprov hdet
    cases hp : llmOf provider with
    | none => rw [hp] at hprov; simp at hprov
    | some p =>
      simp [compute_score, hdet, hp, bind, Except.bind, pure, Except.pure]
  · intro sd h1 h2 h3 h4 h5 h6 h7 h8 h9 h10
    constructor
    · simp only [weights]
      nlinarith
    · simp only [weights]
      nlinarith
  · norm_num [compute_score, compute_deterministic_score, score_experience, score_skills,
      score_diploma, llmOf, weights, bind, Except.bind, pure, Except.pure]

/-- Witness for C5 at a concrete input: the in-range bound applied to the
example adjustment scores (80, 90, 70, 60, 85). -/
theorem c5_weighted_aggregation_witness :
    0 ≤ weights.experience * 80 + weights.skills * 90 + weights.education * 70 +
        weights.languages * 60 + weights.job_fit * 85 ∧
      weights.experience * 80 + weights.skills * 90 + weights.education * 70 +
        weights.languages * 60 + weights.job_fit * 85 ≤ 100 :=
  c5_weighted_aggregation.2.2.1
    { experience := 80, skills := 90, education := 70, languages := 60, job_fit := 85 }
    (by decide) (by decide) (by decide) (by decide) (by decide) (by decide) (by decide)
    (by decide) (by decide) (by decide)

/-- Claim C1 (code bug): with an unsupported provider (`"mistral"`) the
documented degraded-mode return `(0.0, {})` is unreachable.
`semantic_extract` left every extractor field at `None`, and `compute_score`
runs `compute_deterministic_score` *before* the `if not self.llm` check, so
`_score_experience` (when experience is required) or `_score_diploma`
(always) compares `None >= int` and raises `TypeError` — for every job
offer, CV file and oracle, the whole scoring pipeline raises instead of
returning `(0.0, {})`. -/
theorem c1_degraded_mode_unreachable :
    llmOf "mistral" = none ∧
    (∀ (offer : JobOffer) (llmScore : Except PyErr ScoringData),
      compute_score "mistral" offer initExtractor llmScore =
        .error (.typeError "unsupported comparison between NoneType and int")) ∧
    (∀ (file : CVFile) (llmExtract : Except PyErr CVData)
        (llmScore : Except PyErr ScoringData) (offer : JobOffer) (cv : CVRecord),
      scoringPipeline "mistral" file llmExtract llmScore offer cv =
        .error (.typeError "unsupported comparison between NoneType and int")) ∧
    compute_score "mistral"
      { required_experience := 0, required_skills := "Python",
        required_diploma_ranking := some 5 }
      initExtractor (.ok {}) ≠ .ok (0, none) := by
  have hcs : ∀ (offer : JobOffer) (llmScore : Except PyErr ScoringData),
      compute_score "mistral" offer initExtractor llmScore =
        .error (.typeError "unsupported comparison between NoneType and int") := by
    intro offer llmScore
    by_cases h : offer.required_experience ≤ 0
    · simp [compute_score, compute_deterministic_score, score_experience, score_diploma,
        initExtractor, h, bind, Except.bind]
    · simp [compute_score, compute_deterministic_score, score_experience, score_diploma,
        initExtractor, h, bind, Except.bind]
  refine ⟨rfl, hcs, ?_, ?_⟩
  · intro file llmExtract llmScore offer cv
    simp [scoringPipeline, semantic_extract, llmOf, hcs offer llmScore]
  · rw [hcs]
    simp

/-- Claim C10: with an unsupported provider, `semantic_extract` returns early
without invoking any model, without reading the CV file, and without saving
the CV record; the extractor state stays exactly the freshly-initialized one
(every scalar field `None`, every list field empty). -/
theorem c10_semantic_extract_no_op :
    ∀ (provider : String) (file : CVFile) (llmExtract : Except PyErr CVData)
      (cv : CVRecord),
      llmOf provider = none →
      semantic_extract provider file llmExtract initExtractor cv =
        (.ok (initExtractor, cv), noEffects) ∧
      noEffects.modelInvoked = false ∧ noEffects.fileRead = false ∧
      noEffects.cvSaved = false ∧
      initExtractor.name = none ∧ initExtractor.website = none ∧
      initExtractor.phone_number = none ∧ initExtractor.email = none ∧
      initExtractor.description = none ∧ initExtractor.diploma = none ∧
      initExtractor.diploma_ranking = none ∧ initExtractor.year_experience = none ∧
      initExtractor.raw_text = none ∧ initExtractor.skills = [] ∧
      initExtractor.experiences = [] ∧ initExtractor.languages = [] ∧
      initExtractor.certifications = [] := by
  intro provider file llmExtract cv h
  refine ⟨?_, rfl, rfl, rfl, rfl, rfl, rfl, rfl, rfl, rfl, rfl, rfl, rfl, rfl, rfl,
    rfl, rfl⟩
  simp [semantic_extract, h]

/-- Witness for C10 at a concrete input: the provider string `"mistral"` is
not one of the three supported ones, and the call is a complete no-op. -/
theorem c10_semantic_extract_no_op_witness :
    semantic_extract "mistral" { suffix := ".pdf", pdfPageTexts := ["text"] }
      (.ok {}) initExtractor {} = (.ok (initExtractor, {}), noEffects) :=
  (c10_semantic_extract_no_op "mistral" { suffix := ".pdf", pdfPageTexts := ["text"] }
    (.ok {}) {} (by decide)).1

/-- Counterexample to claim C8: the failure raised for an unrecognized file
extension (`.txt`, even with extractable text behind it) is the *same*
`ValueError("Sorry we were unable to extract anything from this CV")` raised
for a recognized PDF whose pages yield no text — there is no distinct
`UnsupportedFormat` error. -/
theorem c8_counterexample_same_error :
    extract_raw { suffix := ".txt", docxText := "some text", pdfPageTexts := ["some text"] } =
      .error (.valueError "Sorry we were unable to extract anything from this CV") ∧
    extract_raw { suffix := ".pdf", pdfPageTexts := [""] } =
      .error (.valueError "Sorry we were unable to extract anything from this CV") ∧
    extract_raw { suffix := ".txt", docxText := "some text", pdfPageTexts := ["some text"] } =
      extract_raw { suffix := ".pdf", pdfPageTexts := [""] } := by
  refine ⟨by decide, by decide, by decide⟩

/-- Claim C8 as amended: a CV whose extension is not a recognized PDF or Word
extension makes the run fail before any model is invoked (and before any CV
save), but with the same generic `ValueError` used for the
recognized-type-yields-no-text case, not a distinct `UnsupportedFormat`
error. -/
theorem c8_amended_unsupported_extension :
    ∀ (provider : String) (file : CVFile) (llmExtract : Except PyErr CVData)
      (ext : Extractor) (cv : CVRecord),
      (llmOf provider).isSome →
      file.suffix ∉ [".docx", ".doc", ".DOCX", ".DOC"] →
      file.suffix ∉ [".pdf", ".PDF"] →
      extract_raw file =
        .error (.valueError "Sorry we were unable to extract anything from this CV") ∧
      (semantic_extract provider file llmExtract ext cv).1 =
        .error (.valueError "Sorry we were unable to extract anything from this CV") ∧
      (semantic_extract provider file llmExtract ext cv).2.modelInvoked = false ∧
      (semantic_extract provider file llmExtract ext cv).2.cvSaved = false := by
  intro provider file llmExtract ext cv hprov hdocx hpdf
  have hraw : extract_raw file =
      .error (.valueError "Sorry we were unable to extract anything from this CV") := by
    simp only [extract_raw, if_neg hdocx, if_neg hpdf]
    rfl
  cases hp : llmOf provider with
  | none => rw [hp] at hprov; simp at hprov
  | some p =>
    refine ⟨hraw, ?_, ?_, ?_⟩ <;> simp [semantic_extract, hp, hraw, PyErr.msg]

/-- Witness for C8 (amended) at a concrete input: provider `"openai"` and a
`.txt` CV file. -/
theorem c8_amended_unsupported_extension_witness :
    (semantic_extract "openai" { suffix := ".txt", docxText := "some text" }
        (.ok {}) initExtractor {}).1 =
      .error (.valueError "Sorry we were unable to extract anything from this CV") :=
  (c8_amended_unsupported_extension "openai" { suffix := ".txt", docxText := "some text" }
    (.ok {}) initExtractor {} (by decide) (by decide) (by decide)).2.1

/-- Claim C9 (code bug): after a successful semantic extraction the profile
persisted onto the CV record is missing the certifications returned by the
model: the assignment block of `semantic_extract` never copies
`result.certifications`, so `save` writes the extractor's initial empty list.
Every other schema field is persisted. -/
theorem c9_certifications_not_persisted :
    (Except.map (fun out => (out.2.certifications, out.2.name, out.2.skills,
        out.2.diploma_ranking, out.2.year_experience, out.2.raw_text))
      (semantic_extract "openai" { suffix := ".pdf", pdfPageTexts := ["raw cv text"] }
        (.ok { name := some "Jane Doe", skills := ["python", "django"],
               diploma := some "Master", diploma_ranking := 5, year_experience := 4,
               certifications := ["AWS Solutions Architect"] })
        initExtractor {}).1) =
      .ok ([], some "Jane Doe", "python, django", some 5, some 4, some "raw cv text") ∧
    ([] : List String) ≠ ["AWS Solutions Architect"] := by
  refine ⟨by rfl, by decide⟩

/-- Updating the non-key fields of a stored row does not change its key. -/
theorem matchKey_update (j c : ℕ) (s : ℚ) (d : String) (t : ℤ) (r : MatchRec) :
    matchKey j c { r with score := s, score_description := d, evaluated_at := t } =
      matchKey j c r := rfl

/-- `countPair` over a cons. -/
theorem countPair_cons (j c : ℕ) (r : MatchRec) (rest : List MatchRec) :
    countPair j c (r :: rest) =
      (if matchKey j c r then 1 else 0) + countPair j c rest := by
  simp only [countPair, List.filter_cons]
  cases hk : matchKey j c r <;> simp [Nat.add_comm]

/-- The in-place update of `update_or_create` preserves the per-pair count. -/
theorem countPair_map_update (j c : ℕ) (s : ℚ) (d : String) (t : ℤ)
    (db : List MatchRec) :
    countPair j c (db.map (fun r =>
      if matchKey j c r then
        { r with score := s, score_description := d, evaluated_at := t }
      else r)) = countPair j c db := by
  induction db with
  | nil => rfl
  | cons r rest ih =>
    by_cases hk : matchKey j c r <;>
      simp [List.map_cons, countPair_cons, ih, hk, matchKey_update]

/-- Appending a freshly created row for the pair adds exactly one to the
per-pair count. -/
theorem countPair_append_new (j c : ℕ) (s : ℚ) (d : String) (t : ℤ)
    (db : List MatchRec) :
    countPair j c
        (db ++ [{ job_offer := j, cv := c, score := s,
                  score_description := d, evaluated_at := t }]) =
      countPair j c db + 1 := by
  simp [countPair, List.filter_append, matchKey]

/-- One completed `update_or_create` call from a state with at most one row
for the pair: it succeeds, leaves exactly one row for the pair, and does not
grow the table when a row already existed. -/
theorem update_or_create_upsert (j c : ℕ) (s : ℚ) (d : String) (t : ℤ)
    (db : List MatchRec) (h : countPair j c db ≤ 1) :
    ∃ db1, update_or_create j c s d t db = .ok db1 ∧ countPair j c db1 = 1 ∧
      (countPair j c db = 1 → db1.length = db.length) := by
  cases hf : db.filter (matchKey j c) with
  | nil =>
    have h0 : countPair j c db = 0 := by simp [countPair, hf]
    refine ⟨db ++ [{ job_offer := j, cv := c, score := s, score_description := d,
                     evaluated_at := t }], ?_, ?_, ?_⟩
    · simp [update_or_create, hf]
    · rw [countPair_append_new, h0]
    · intro h1; omega
  | cons x xs =>
    cases xs with
    | nil =>
      have h1 : countPair j c db = 1 := by simp [countPair, hf]
      refine ⟨db.map (fun r =>
                if matchKey j c r then
                  { r with score := s, score_description := d, evaluated_at := t }
                else r), ?_, ?_, fun _ => ?_⟩
      · simp [update_or_create, hf]
      · rw [countPair_map_update, h1]
      · simp
    | cons y ys =>
      exfalso
      rw [countPair] at h
      rw [hf] at h
      simp at h

/-- Claim C6: `CVMatching` writes are upserts keyed on the (job offer, cv)
pair.  Starting from any table holding at most one row for the pair, a
completed run leaves exactly one row for the pair (updating in place, never
appending, when a row already exists), and so does a second completed run —
after two sequential runs exactly one row exists for the pair. -/
theorem c6_upsert_single_record :
    ∀ (j c : ℕ) (s1 s2 : ℚ) (d1 d2 : String) (t1 t2 : ℤ) (db : List MatchRec),
      countPair j c db ≤ 1 →
      (∃ db1, update_or_create j c s1 d1 t1 db = .ok db1) ∧
      (∀ db1, update_or_create j c s1 d1 t1 db = .ok db1 →
        countPair j c db1 = 1 ∧
        (countPair j c db = 1 → db1.length = db.length) ∧
        (∃ db2, update_or_create j c s2 d2 t2 db1 = .ok db2) ∧
        (∀ db2, update_or_create j c s2 d2 t2 db1 = .ok db2 →
          countPair j c db2 = 1 ∧ db2.length = db1.length)) := by
  intro j c s1 s2 d1 d2 t1 t2 db h
  obtain ⟨db1, hdb1, hcount1, hlen1⟩ := update_or_create_upsert j c s1 d1 t1 db h
  refine ⟨⟨db1, hdb1⟩, ?_⟩
  intro db1' hdb1'
  rw [hdb1] at hdb1'
  obtain rfl : db1 = db1' := by injection hdb1'
  obtain ⟨db2, hdb2, hcount2, hlen2⟩ :=
    update_or_create_upsert j c s2 d2 t2 db1 (by omega)
  refine ⟨hcount1, hlen1, ⟨db2, hdb2⟩, ?_⟩
  intro db2' hdb2'
  rw [hdb2] at hdb2'
  obtain rfl : db2 = db2' := by injection hdb2'
  exact ⟨hcount2, hlen2 hcount1⟩

/-- Witness for C6 at a concrete input: two sequential completed runs for the
pair (1, 2) starting from an empty table leave exactly one row. -/
theorem c6_upsert_single_record_witness :
    countPair 1 2 [{ job_offer := 1, cv := 2, score := 90,
                     score_description := "second", evaluated_at := 7 }] = 1 := by
  have h := (c6_upsert_single_record 1 2 80 90 "first" "second" 3 7 [] (by decide)).2
    [{ job_offer := 1, cv := 2, score := 80, score_description := "first",
       evaluated_at := 3 }] (by rfl)
  exact (h.2.2.2 [{ job_offer := 1, cv := 2, score := 90,
                    score_description := "second", evaluated_at := 7 }] (by rfl)).1

/-- Claim C7: `CVScoreSerializer.save` writes the `CVMatching` row only after
the scoring pipeline has fully completed and the detail payload has been
serialized: any pipeline failure yields the `Unable to compute score`
validation error with the match table untouched; a serialization failure
yields the `Unable to serialize score details` validation error with the
match table untouched; only when both succeed does the upsert run, with the
fully computed score and serialized details. -/
theorem c7_write_only_after_success :
    ∀ (provider : String) (file : CVFile) (llmExtract : Except PyErr CVData)
      (llmScore : Except PyErr ScoringData)
      (dumps : Option ScoringData → Except PyErr String)
      (offer : JobOffer) (j c : ℕ) (cv : CVRecord) (t : ℤ) (db : List MatchRec),
      (∀ e, scoringPipeline provider file llmExtract llmScore offer cv = .error e →
        cvScoreSave provider file llmExtract llmScore dumps offer j c cv t db =
          .ok (some .unableToCompute, db)) ∧
      (∀ score details cv2 e,
        scoringPipeline provider file llmExtract llmScore offer cv =
          .ok (score, details, cv2) →
        dumps details = .error e →
        cvScoreSave provider file llmExtract llmScore dumps offer j c cv t db =
          .ok (some .unableToSerialize, db)) ∧
      (∀ score details cv2 s,
        scoringPipeline provider file llmExtract llmScore offer cv =
          .ok (score, details, cv2) →
        dumps details = .ok s →
        cvScoreSave provider file llmExtract llmScore dumps offer j c cv t db =
          Except.map (fun db2 => (none, db2)) (update_or_create j c score s t db)) := by
  intro provider file llmExtract llmScore dumps offer j c cv t db
  refine ⟨?_, ?_, ?_⟩
  · intro e he
    simp [cvScoreSave, he]
  · intro score details cv2 e hok herr
    simp [cvScoreSave, hok, herr]
  · intro score details cv2 s hok hser
    simp [cvScoreSave, hok, hser]

/-- Witness for C7 at a concrete input: with the unsupported provider
`"mistral"` the pipeline raises, the caller gets the single terminal
`Unable to compute score` error, and the (empty) match table is unchanged. -/
theorem c7_write_only_after_success_witness :
    cvScoreSave "mistral" { suffix := ".pdf", pdfPageTexts := ["text"] } (.ok {}) (.ok {})
      (fun _ => .ok "details")
      { required_experience := 0, required_skills := "Python",
        required_diploma_ranking := some 5 } 1 2 {} 0 [] =
      .ok (some VErr.unableToCompute, []) :=
  (c7_write_only_after_success "mistral" { suffix := ".pdf", pdfPageTexts := ["text"] }
    (.ok {}) (.ok {}) (fun _ => .ok "details")
    { required_experience := 0, required_skills := "Python",
      required_diploma_ranking := some 5 } 1 2 {} 0 []).1
    (.typeError "unsupported comparison between NoneType and int") (by rfl)
